import Mathlib

/-!
# Verification of the pyusbtmc oscilloscope driver

Shallow embedding, in Lean 4, of the `usbtmc` transport class and the
`RigolScope` controller from `pyusbtmc.py`, together with proofs about the
waveform decode/scale pipeline, the time-axis construction, the error
normalization of the transport read, and the close/unlock ordering.

Numeric values that the Python code carries as IEEE-754 doubles are modelled
as exact rationals (`ℚ`); all the constants involved in the claims proved
below are exactly representable, so the rational model agrees with the
binary64 arithmetic on every instance stated here.
-/

/-! ## Transport layer: `usbtmc.read`

`usbtmc.read` calls `os.read(self.FILE, length)`.  The operating-system read
is modelled as an oracle value of type `OSReadResult`: either the bytes the
OS returned, or an `OSError` with its errno (`e.args[0]`) and message.  The
Python code swallows every `OSError`, printing a distinguished message for
errno 110 ("timed out") and returning the empty string; the model returns
the value together with the list of stderr lines printed. -/

inductive OSReadResult where
  | ok (bytes : List ℕ)
  | err (errno : ℕ) (msg : String)
deriving DecidableEq

/-- Embedding of `usbtmc.read` (pyusbtmc.py lines 32–41).  The `length`
argument is forwarded to `os.read` (the oracle), so it does not appear in
the body; the OS contract that a successful read returns at most `length`
bytes is stated as a hypothesis where needed.  Result: the bytes returned to
the caller, paired with the stderr log lines produced. -/
def usbtmc.read (osr : OSReadResult) (length : ℕ := 4000) : List ℕ × List String :=
  match osr with
  | .ok bytes => (bytes, [])
  | .err errno msg =>
      if errno = 110 then ([], ["Read Error: Read timeout"])
      else ([], ["Read Error: " ++ msg])

/-! ## Waveform decode: `RigolScope.readData` -/

def RIGOL_WAV_PREAMBLE_LENGTH : ℕ := 10

/-- Model of `numpy.frombuffer(buf, dtype='B', offset=off)` with the default
`count=-1`: numpy raises `ValueError` when `offset` exceeds the buffer
length, and otherwise interprets every byte past `offset` as one unsigned
8-bit sample (itemsize 1, so no divisibility constraint). -/
def numpy_frombuffer_B (buf : List ℕ) (offset : ℕ) : Except String (List ℕ) :=
  if offset ≤ buf.length then
    .ok (buf.drop offset)
  else
    .error "ValueError: offset must be non-negative and no greater than buffer length"

/-- Embedding of `RigolScope.readData` (pyusbtmc.py lines 113–116), applied
to the raw byte string returned by `readRawData`. -/
def RigolScope.readData (rawdata : List ℕ) : Except String (List ℕ) :=
  numpy_frombuffer_B rawdata RIGOL_WAV_PREAMBLE_LENGTH

/-! ## Voltage scaling: `RigolScope.getScaledWaveform` -/

/-- The numpy expression `255 - data` on a `uint8` array: for a sample
`s ≤ 255` the subtraction never wraps, so natural-number truncated
subtraction coincides with the uint8 result. -/
def invert255 (s : ℕ) : ℕ := 255 - s

/-- Embedding of the arithmetic applied to one sample by
`RigolScope.getScaledWaveform` (pyusbtmc.py lines 130–143):
`data = 255 - data` followed by
`data = (data - 130.0 - voltoffset/voltscale*25) / 25 * voltscale`. -/
def scaleSample (voltscale voltoffset : ℚ) (s : ℕ) : ℚ :=
  ((invert255 s : ℚ) - 130 - voltoffset / voltscale * 25) / 25 * voltscale

/-- Embedding of `RigolScope.getScaledWaveform`, as a function of the scale
and offset the scope reported and of the decoded samples. -/
def RigolScope.getScaledWaveform (voltscale voltoffset : ℚ) (data : List ℕ) : List ℚ :=
  data.map (scaleSample voltscale voltoffset)

/-- The voltage transform exactly as the specification words it:
`inverted = 255 - s` then
`value = ((inverted - 130.0 - (voltOffset / voltScale) * 25.0) / 25.0) * voltScale`.
Stated over `ℚ` to compare with the embedding of the source. -/
def spec_scaleVoltage (voltScale voltOffset : ℚ) (s : ℕ) : ℚ :=
  let inverted : ℚ := 255 - (s : ℚ)
  ((inverted - 130 - (voltOffset / voltScale) * 25) / 25) * voltScale

/-! ## Time axis: `RigolScope.getTimeAxis` -/

/-- Model of `numpy.linspace(start, stop, num)` (`endpoint=True`): the `i`-th
point is `start + i * (stop - start) / (num - 1)`.  numpy additionally
overwrites the last entry with `stop`, which in exact arithmetic is the same
value. -/
def numpy_linspace (start stop : ℚ) (num : ℕ) : List ℚ :=
  (List.range num).map (fun i : ℕ => start + (i : ℚ) * ((stop - start) / ((num : ℚ) - 1)))

/-- Embedding of `RigolScope.getTimeAxis` (pyusbtmc.py lines 145–156), as a
function of the `timescale` and `timeoffset` values fetched from the scope.
The source computes `timespan = 300./50*timescale` and returns
`numpy.linspace(-timespan, +timespan, 600)`; the fetched `timeoffset` is
never used in the formula, exactly as in the source. -/
def RigolScope.getTimeAxis (timescale timeoffset : ℚ) : List ℚ :=
  let timespan := 300 / 50 * timescale
  numpy_linspace (-timespan) timespan 600

/-! ## Scale/offset queries: `float(self.query(...))`

`RigolScope.getVoltScale`/`getVoltOffset`/`getTimeScale`/`getTimeOffset`
(pyusbtmc.py lines 118–128) each send one command and parse the response
with the Python builtin `float`.  The instrument is modelled as an oracle
`respond : String → String` giving the string `query` returns for each
command (`query` returns the transport read as-is, so an empty string after
a timeout is a possible response).  `float` on a non-numeric string raises
`ValueError`, which propagates to the caller; the spec names that condition
`MalformedResponseError`. -/

/-- Whitespace accepted and stripped by the Python `float` builtin. -/
def isPySpace (c : Char) : Bool :=
  c == ' ' || c == '\t' || c == '\n' || c == '\r' || c == '\x0b' || c == '\x0c'

/-- Strip leading and trailing whitespace from a character list. -/
def stripChars (cs : List Char) : List Char :=
  ((cs.dropWhile isPySpace).reverse.dropWhile isPySpace).reverse

/-- Value of a list of decimal digit characters, most significant first. -/
def digitsVal (cs : List Char) : ℕ :=
  cs.foldl (fun a c => 10 * a + (c.toNat - 48)) 0

/-- Optional leading sign: returns the sign as `±1` and the rest. -/
def parseSign : List Char → ℤ × List Char
  | '+' :: r => (1, r)
  | '-' :: r => (-1, r)
  | cs => (1, cs)

/-- Unsigned decimal mantissa: digits with at most one decimal point and at
least one digit overall (`"1"`, `"1."`, `".5"`, `"1.5"`). -/
def parseUnsignedDec (cs : List Char) : Option ℚ :=
  match cs.splitOn '.' with
  | [ip] =>
      if ip ≠ [] ∧ ip.all Char.isDigit then some (digitsVal ip) else none
  | [ip, fp] =>
      if ip ++ fp ≠ [] ∧ (ip ++ fp).all Char.isDigit then
        some ((digitsVal (ip ++ fp) : ℚ) / 10 ^ fp.length)
      else none
  | _ => none

/-- Signed decimal mantissa. -/
def parseSignedDec (cs : List Char) : Option ℚ :=
  let (sg, r) := parseSign cs
  (parseUnsignedDec r).map (fun v => (sg : ℚ) * v)

/-- Signed decimal integer (for the exponent part). -/
def parseSignedInt (cs : List Char) : Option ℤ :=
  let (sg, r) := parseSign cs
  if r ≠ [] ∧ r.all Char.isDigit then some (sg * (digitsVal r : ℤ)) else none

/-- Model of the Python 2 builtin `float(s)` restricted to finite decimal
literals: optional surrounding whitespace, optional sign, digits with an
optional decimal point, and an optional `e`/`E` exponent.  Returns `none`
exactly when `float` raises `ValueError` (the special spellings
`inf`/`infinity`/`nan`, which have no rational value, are also mapped to
`none`; no claim below touches them). -/
def pyFloat (s : String) : Option ℚ :=
  let cs := (stripChars s.toList).map Char.toLower
  match cs.splitOn 'e' with
  | [m] => parseSignedDec m
  | [m, ex] => do
      let mv ← parseSignedDec m
      let ev ← parseSignedInt ex
      some (mv * (10 : ℚ) ^ ev)
  | _ => none

/-- Error taxonomy of the spec relevant to the numeric queries. -/
inductive ScopeError where
  | malformedResponse (raw : String)
deriving DecidableEq

/-- `float(response)`: a parsed value, or the propagated parse error. -/
def floatOfResponse (resp : String) : Except ScopeError ℚ :=
  match pyFloat resp with
  | some v => .ok v
  | none => .error (.malformedResponse resp)

/-- Embedding of `RigolScope.getVoltScale`:
`float(self.query(":CHAN"+str(chan)+":SCAL?", 20))`. -/
def RigolScope.getVoltScale (respond : String → String) (chan : ℕ) : Except ScopeError ℚ :=
  floatOfResponse (respond (":CHAN" ++ toString chan ++ ":SCAL?"))

/-- Embedding of `RigolScope.getVoltOffset`:
`float(self.query(":CHAN"+str(chan)+":OFFS?", 20))`. -/
def RigolScope.getVoltOffset (respond : String → String) (chan : ℕ) : Except ScopeError ℚ :=
  floatOfResponse (respond (":CHAN" ++ toString chan ++ ":OFFS?"))

/-- Embedding of `RigolScope.getTimeScale`: `float(self.query(":TIM:SCAL?", 20))`. -/
def RigolScope.getTimeScale (respond : String → String) : Except ScopeError ℚ :=
  floatOfResponse (respond ":TIM:SCAL?")

/-- Embedding of `RigolScope.getTimeOffset`: `float(self.query(":TIM:OFFS?", 20))`. -/
def RigolScope.getTimeOffset (respond : String → String) : Except ScopeError ℚ :=
  floatOfResponse (respond ":TIM:OFFS?")

/-- The all-empty oracle: every query times out and `query` hands back the
empty string. -/
def emptyRespond : String → String := fun _ => ""

/-! ## Device-action traces: `forceTrigger`, `unlock`, `close`

The commands that only write to the transport are modelled by the trace of
device actions they perform, in order. -/

inductive DeviceAction where
  | write (cmd : String)
  | closeHandle
deriving DecidableEq

/-- Embedding of `usbtmc.write`: one blocking write of the command. -/
def usbtmc.write (cmd : String) : List DeviceAction := [.write cmd]

/-- Embedding of `usbtmc.close`: `os.close(self.FILE)`, releasing the handle. -/
def usbtmc.close : List DeviceAction := [.closeHandle]

/-- Embedding of `RigolScope.forceTrigger`: `self.write(":KEY:FORC")`. -/
def RigolScope.forceTrigger : List DeviceAction := usbtmc.write ":KEY:FORC"

/-- Embedding of `RigolScope.unlock`: the body is exactly
`self.forceTrigger()` (the alternative `:KEY:LOCK DIS` write is commented
out in the source). -/
def RigolScope.unlock : List DeviceAction := RigolScope.forceTrigger

/-- Embedding of `RigolScope.close`: `self.unlock()` then
`usbtmc.close(self)`. -/
def RigolScope.close : List DeviceAction := RigolScope.unlock ++ usbtmc.close

/-! ## Serialization: `writeWaveformToFile` / `_writeChannelDataToFile`

The Python `%1.<p>e` conversion renders a double in scientific notation with
`p` fractional digits and a signed two-digit exponent.  It is modelled here
on exact rationals: `formatE p x` is the string `%1.<p>e` produces for the
real value `x` (rounding ties to even, as the CPython formatter does on the
decimal expansion). -/

/-- Round half to even. -/
def roundHalfEven (q : ℚ) : ℤ :=
  let f := ⌊q⌋
  let r := q - (f : ℚ)
  if r < 1 / 2 then f
  else if 1 / 2 < r then f + 1
  else if f % 2 = 0 then f else f + 1

/-- Two-digit zero-padded decimal rendering of the exponent magnitude. -/
def twoDigits (n : ℕ) : String :=
  if n < 10 then "0" ++ toString n else toString n

/-- The `e±dd` suffix of the `%e` conversion. -/
def expSuffix (e : ℤ) : String :=
  if e < 0 then "e-" ++ twoDigits e.natAbs else "e+" ++ twoDigits e.natAbs

/-- Renders the `prec+1` mantissa digits `d₀d₁…dₚ` as `d₀.d₁…dₚ`. -/
def mantissaString (digits : ℕ) : String :=
  match (toString digits).toList with
  | [] => ""
  | d :: rest => String.mk (d :: '.' :: rest)

/-- Model of the Python conversion `"%1.<prec>e" % x` on an exact rational:
zero renders as `0.<prec zeros>e+00`; otherwise the decimal exponent is
`⌊log₁₀ |x|⌋`, the mantissa is rounded to `prec` fractional digits (ties to
even) with a carry bumping the exponent when the rounded mantissa
reaches 10. -/
def formatE (prec : ℕ) (x : ℚ) : String :=
  if x = 0 then "0." ++ String.mk (List.replicate prec '0') ++ "e+00"
  else
    let sign := if x < 0 then "-" else ""
    let m := |x|
    let e := Int.log 10 m
    let scaled := roundHalfEven (m * (10 : ℚ) ^ ((prec : ℤ) - e))
    let carried := scaled = (10 : ℤ) ^ (prec + 1)
    let digits := if carried then (10 : ℤ) ^ prec else scaled
    let e2 := if carried then e + 1 else e
    sign ++ mantissaString digits.toNat ++ expSuffix e2

/-- One data line of `_writeChannelDataToFile`:
`"%1.4e\t%1.3e\t%1.3e\n" % (time[i], data1[i], data2[i])`. -/
def dataLine (t v1 v2 : ℚ) : String :=
  formatE 4 t ++ "\t" ++ formatE 3 v1 ++ "\t" ++ formatE 3 v2 ++ "\n"

/-- The header line written before the data. -/
def headerLine : String := "# Time     \tChannel 1\tChannel 2\n"

/-- Embedding of `RigolScope._writeChannelDataToFile` (pyusbtmc.py lines
176–185): the list of lines written to the file descriptor, one header and
then one line for each index `i` in `range(time.size)`.  Indexing
`data1[i]`/`data2[i]` raises `IndexError` when an array is shorter than the
time axis, so the result is an `Option`, `some` exactly when both data
arrays cover every index of `time`. -/
def RigolScope.writeChannelDataToFile (data1 data2 time : List ℚ) : Option (List String) :=
  if time.length ≤ data1.length ∧ time.length ≤ data2.length then
    some (headerLine ::
      (List.range time.length).map (fun i => dataLine (time.getD i 0) (data1.getD i 0) (data2.getD i 0)))
  else none

/-- Model of `numpy.zeros(n)`. -/
def numpy_zeros (n : ℕ) : List ℚ := List.replicate n 0

/-- The channel selector of `writeWaveformToFile`: the Python argument is
either the string `'BOTH'` or a number. -/
inductive ChanSel where
  | both
  | num (n : ℤ)
deriving DecidableEq

/-- `if chan=='BOTH': chan = 3` — the numeric selector after that rewrite. -/
def chanNum : ChanSel → ℤ
  | .both => 3
  | .num n => n

/-- Embedding of the body of `RigolScope.writeWaveformToFile` (pyusbtmc.py
lines 158–174) up to the final write: the lines produced.  `w1` and `w2` are
oracles for `self.getScaledWaveform(1)` and `self.getScaledWaveform(2)`(the
scaled arrays the scope's responses decode to); a channel that is not
requested keeps `numpy.zeros(time.size)`. -/
def RigolScope.writeWaveformToFile_lines (chan : ChanSel) (timescale timeoffset : ℚ)
    (w1 w2 : List ℚ) : Option (List String) :=
  RigolScope.writeChannelDataToFile
    (if chanNum chan = 1 ∨ chanNum chan = 3 then w1
      else numpy_zeros (RigolScope.getTimeAxis timescale timeoffset).length)
    (if chanNum chan = 2 ∨ chanNum chan = 3 then w2
      else numpy_zeros (RigolScope.getTimeAxis timescale timeoffset).length)
    (RigolScope.getTimeAxis timescale timeoffset)

/-- The stream `writeWaveformToFile` writes to: `sys.stdout` when the
filename is the blank sentinel `""`, otherwise the named file. -/
inductive FileTarget where
  | stdout
  | file (name : String)
deriving DecidableEq

/-- Observable file-system actions of `writeWaveformToFile`. -/
inductive FileOp where
  | write (target : FileTarget) (s : String)
  | close (target : FileTarget)
deriving DecidableEq

/-- The stream a file operation acts on. -/
def FileOp.target : FileOp → FileTarget
  | .write t _ => t
  | .close t => t

/-- Embedding of `RigolScope.writeWaveformToFile` as its trace of file
operations: choose the target from the filename, write every line to it,
then unconditionally `fd.close()` — also when the target is `sys.stdout`. -/
def RigolScope.writeWaveformToFile_ops (filename : String) (chan : ChanSel)
    (timescale timeoffset : ℚ) (w1 w2 : List ℚ) : Option (List FileOp) :=
  (RigolScope.writeWaveformToFile_lines chan timescale timeoffset w1 w2).map
    (fun lines =>
      lines.map (FileOp.write (if filename = "" then FileTarget.stdout
        else FileTarget.file filename)) ++
      [FileOp.close (if filename = "" then FileTarget.stdout else FileTarget.file filename)])

/-! ## Claims -/

/-- **C1.** For every sample `s` (unsigned byte), every `voltScale ≠ 0` and
every `voltOffset`, the arithmetic of `getScaledWaveform` computes exactly
`inverted = 255 - s` followed by
`value = ((inverted - 130.0 - (voltOffset / voltScale) * 25.0) / 25.0) * voltScale`,
with that operation order and those constants; in particular for
`voltScale = 100`, `voltOffset = 0`, `sample = 130` the result is exactly
`-20`. -/
theorem C1_scaleVoltage_matches_spec :
    (∀ (s : ℕ) (voltScale voltOffset : ℚ), s ≤ 255 → voltScale ≠ 0 →
      scaleSample voltScale voltOffset s = spec_scaleVoltage voltScale voltOffset s) ∧
    RigolScope.getScaledWaveform 100 0 [130] = [-20] := by
  constructor
  · intro s voltScale voltOffset hs _
    unfold scaleSample spec_scaleVoltage invert255
    rw [Nat.cast_sub hs]
    push_cast
    ring
  · show [scaleSample 100 0 130] = [-20]
    unfold scaleSample invert255
    norm_num

/-- Witness for C1 at `s = 130`, `voltScale = 100`, `voltOffset = 0`. -/
theorem C1_scaleVoltage_matches_spec_witness :
    scaleSample 100 0 130 = spec_scaleVoltage 100 0 130 ∧
    RigolScope.getScaledWaveform 100 0 [130] = [-20] :=
  ⟨C1_scaleVoltage_matches_spec.1 130 100 0 (by norm_num) (by norm_num),
   C1_scaleVoltage_matches_spec.2⟩

/-- **C2, counterexample.** The claim states that a raw waveform of length
`L < 10` decodes to an empty sequence and not an error; in fact
`numpy.frombuffer` with `offset=10` raises `ValueError` on a 9-byte buffer,
so `readData` propagates an error and returns no sequence at all. -/
theorem C2_short_buffer_is_error :
    RigolScope.readData (List.replicate 9 0) =
      Except.error "ValueError: offset must be non-negative and no greater than buffer length" ∧
    RigolScope.readData (List.replicate 9 0) ≠ Except.ok [] := by
  constructor
  · rfl
  · intro h
    rw [show RigolScope.readData (List.replicate 9 0) =
        Except.error "ValueError: offset must be non-negative and no greater than buffer length"
      from rfl] at h
    exact Except.noConfusion h

/-- **C2, amended.** Decoding a raw waveform of length `L ≥ 10` yields
exactly `L - 10` unsigned-byte samples; for `L < 10` it raises an error (the
`ValueError` from `numpy.frombuffer`), not an empty sequence. -/
theorem C2_decode_length (raw : List ℕ) :
    (10 ≤ raw.length →
      ∃ samples, RigolScope.readData raw = Except.ok samples ∧
        samples.length = raw.length - 10) ∧
    (raw.length < 10 → ∃ msg, RigolScope.readData raw = Except.error msg) := by
  constructor
  · intro h
    refine ⟨raw.drop 10, ?_, by simp⟩
    unfold RigolScope.readData numpy_frombuffer_B RIGOL_WAV_PREAMBLE_LENGTH
    rw [if_pos h]
  · intro h
    refine ⟨"ValueError: offset must be non-negative and no greater than buffer length", ?_⟩
    unfold RigolScope.readData numpy_frombuffer_B RIGOL_WAV_PREAMBLE_LENGTH
    rw [if_neg (by omega)]

/-- Witness for C2 on a 10-byte and on an empty raw buffer. -/
theorem C2_decode_length_witness :
    (∃ samples, RigolScope.readData (List.replicate 10 0) = Except.ok samples ∧
      samples.length = (List.replicate 10 (0 : ℕ)).length - 10) ∧
    (∃ msg, RigolScope.readData [] = Except.error msg) :=
  ⟨(C2_decode_length (List.replicate 10 0)).1 (by decide),
   (C2_decode_length []).2 (by decide)⟩

/-- **C4.** The generated time axis does not depend on the time offset: for
every `timescale` and any two `timeoffset` values the construction returns
identical sequences. -/
theorem C4_timeAxis_ignores_offset (timescale o1 o2 : ℚ) :
    RigolScope.getTimeAxis timescale o1 = RigolScope.getTimeAxis timescale o2 := rfl

/-- **C6.** A transport read whose OS call fails — with errno 110 ("timed
out") or any other error — returns the empty byte sequence instead of
propagating the failure; a successful read returns at most `len` bytes
(given the OS contract on `os.read`); and the errno-110 case is logged with
the distinguished timeout message.  The caller never observes an
exception: `usbtmc.read` is a total function into byte sequences. -/
theorem C6_read_swallows_errors (osr : OSReadResult) (len : ℕ) :
    (∀ errno msg, osr = .err errno msg → (usbtmc.read osr len).1 = []) ∧
    ((∀ bs, osr = .ok bs → bs.length ≤ len) → (usbtmc.read osr len).1.length ≤ len) ∧
    (∀ msg, osr = .err 110 msg → (usbtmc.read osr len).2 = ["Read Error: Read timeout"]) := by
  refine ⟨?_, ?_, ?_⟩
  · intro errno msg h
    subst h
    by_cases h110 : errno = 110 <;> simp [usbtmc.read, h110]
  · intro h
    cases hos : osr with
    | ok bytes => simpa [usbtmc.read] using h bytes hos
    | err errno msg => by_cases h110 : errno = 110 <;> simp [usbtmc.read, h110]
  · intro msg h
    subst h
    simp [usbtmc.read]

/-- Witness for C6 at a timed-out read (`errno = 110`) with `len = 4000`. -/
theorem C6_read_swallows_errors_witness :
    (usbtmc.read (.err 110 "timed out") 4000).1 = [] ∧
    (usbtmc.read (.err 110 "timed out") 4000).1.length ≤ 4000 ∧
    (usbtmc.read (.err 110 "timed out") 4000).2 = ["Read Error: Read timeout"] :=
  ⟨(C6_read_swallows_errors (.err 110 "timed out") 4000).1 110 "timed out" rfl,
   (C6_read_swallows_errors (.err 110 "timed out") 4000).2.1
     (fun bs h => OSReadResult.noConfusion h),
   (C6_read_swallows_errors (.err 110 "timed out") 4000).2.2 "timed out" rfl⟩

/-- **C7.** Closing the scope controller performs the unlock write
`":KEY:FORC"` strictly before releasing the device handle: the close trace
is exactly `[write ":KEY:FORC", closeHandle]`, and every handle release in
the trace is preceded by the unlock write. -/
theorem C7_close_unlocks_before_release :
    RigolScope.close = [DeviceAction.write ":KEY:FORC", DeviceAction.closeHandle] ∧
    ∀ j, RigolScope.close.get? j = some DeviceAction.closeHandle →
      ∃ i, i < j ∧ RigolScope.close.get? i = some (DeviceAction.write ":KEY:FORC") := by
  constructor
  · rfl
  · intro j hj
    have hj1 : j = 1 := by
      match j with
      | 0 => exact absurd hj (by decide)
      | 1 => rfl
      | n + 2 =>
          exact absurd hj (by
            simp [RigolScope.close, RigolScope.unlock, RigolScope.forceTrigger,
              usbtmc.write, usbtmc.close])
    subst hj1
    exact ⟨0, Nat.zero_lt_one, rfl⟩

/-- Witness for C7 at the concrete release position `j = 1`. -/
theorem C7_close_unlocks_before_release_witness :
    ∃ i, i < 1 ∧ RigolScope.close.get? i = some (DeviceAction.write ":KEY:FORC") :=
  C7_close_unlocks_before_release.2 1 rfl

/-- **C9.** `unlock` is behaviorally identical to `forceTrigger`: both
produce exactly one transport write of `":KEY:FORC"` and nothing else. -/
theorem C9_unlock_is_forceTrigger :
    RigolScope.unlock = RigolScope.forceTrigger ∧
    RigolScope.forceTrigger = [DeviceAction.write ":KEY:FORC"] := ⟨rfl, rfl⟩

/-- Length of the generated time axis: `numpy.linspace(…, …, 600)` always
yields 600 points. -/
theorem getTimeAxis_length (timescale timeoffset : ℚ) :
    (RigolScope.getTimeAxis timescale timeoffset).length = 600 := by
  unfold RigolScope.getTimeAxis numpy_linspace
  rw [List.length_map, List.length_range]

/-- Closed form of the `i`-th point of the time axis at `timescale = 1`:
`-6 + i * (12 / 599)`. -/
theorem getTimeAxis_one_get (timeoffset : ℚ) (i : ℕ) (h : i < 600) :
    (RigolScope.getTimeAxis 1 timeoffset).get? i = some (-6 + (i : ℚ) * (12 / 599)) := by
  unfold RigolScope.getTimeAxis numpy_linspace
  rw [List.get?_map, List.get?_range h]
  norm_num

/-- The point of the time axis at index 299: `-6/599`. -/
theorem getTimeAxis_one_299 (timeoffset : ℚ) :
    (RigolScope.getTimeAxis 1 timeoffset).get? 299 = some (-(6 / 599)) := by
  rw [getTimeAxis_one_get timeoffset 299 (by norm_num)]
  norm_num

/-- The point of the time axis at index 300: `6/599`. -/
theorem getTimeAxis_one_300 (timeoffset : ℚ) :
    (RigolScope.getTimeAxis 1 timeoffset).get? 300 = some (6 / 599) := by
  rw [getTimeAxis_one_get timeoffset 300 (by norm_num)]
  norm_num

/-- **C3, counterexample.** The claim calls the point at index 300 "the one
closest to 0"; in exact arithmetic the points at indices 299 and 300 are
`-6/599` and `+6/599`: two distinct points at exactly the same distance from
zero, so index 300 is not the unique closest point. -/
theorem C3_index300_tied_with_index299 :
    (RigolScope.getTimeAxis 1 0).get? 299 = some (-(6 / 599)) ∧
    (RigolScope.getTimeAxis 1 0).get? 300 = some (6 / 599) ∧
    |(-(6 / 599) : ℚ)| = |(6 / 599 : ℚ)| ∧ (-(6 / 599) : ℚ) ≠ 6 / 599 :=
  ⟨getTimeAxis_one_299 0, getTimeAxis_one_300 0, by norm_num, by norm_num⟩

/-- **C3, amended.** With `timeScale = 1` and any `timeOffset`, the time
axis has exactly 600 points, is strictly increasing and symmetric about
zero, starts at exactly `-6` and ends at exactly `+6`, and the point at
0-based index 300 attains the minimum distance to zero — tied exactly with
the point at index 299 (`±6/599`), so it is a closest point but not the
unique one. -/
theorem C3_timeAxis_properties (timeoffset : ℚ) :
    (RigolScope.getTimeAxis 1 timeoffset).length = 600 ∧
    (∀ i j x y, i < j →
      (RigolScope.getTimeAxis 1 timeoffset).get? i = some x →
      (RigolScope.getTimeAxis 1 timeoffset).get? j = some y → x < y) ∧
    (∀ i x y, i < 600 →
      (RigolScope.getTimeAxis 1 timeoffset).get? i = some x →
      (RigolScope.getTimeAxis 1 timeoffset).get? (599 - i) = some y → x = -y) ∧
    (RigolScope.getTimeAxis 1 timeoffset).get? 0 = some (-6) ∧
    (RigolScope.getTimeAxis 1 timeoffset).get? 599 = some 6 ∧
    (∀ x y j, (RigolScope.getTimeAxis 1 timeoffset).get? 300 = some x →
      (RigolScope.getTimeAxis 1 timeoffset).get? j = some y → |x| ≤ |y|) ∧
    |(6 / 599 : ℚ)| = |(-(6 / 599) : ℚ)| := by
  have hlen := getTimeAxis_length 1 timeoffset
  refine ⟨hlen, ?_, ?_, ?_, ?_, ?_, by norm_num⟩
  · intro i j x y hij hx hy
    have hj : j < 600 := by
      have := (List.get?_eq_some.mp hy).1
      omega
    have hi : i < 600 := lt_trans hij hj
    rw [getTimeAxis_one_get timeoffset i hi] at hx
    rw [getTimeAxis_one_get timeoffset j hj] at hy
    obtain rfl := Option.some.inj hx
    obtain rfl := Option.some.inj hy
    have hq : (i : ℚ) < (j : ℚ) := by exact_mod_cast hij
    have := mul_lt_mul_of_pos_right hq (by norm_num : (0 : ℚ) < 12 / 599)
    linarith
  · intro i x y hi hx hy
    have hi9 : 599 - i < 600 := by omega
    rw [getTimeAxis_one_get timeoffset i hi] at hx
    rw [getTimeAxis_one_get timeoffset (599 - i) hi9] at hy
    obtain rfl := Option.some.inj hx
    obtain rfl := Option.some.inj hy
    have hc : ((599 - i : ℕ) : ℚ) = 599 - (i : ℚ) :=
      Nat.cast_sub (by omega : i ≤ 599)
    rw [hc]
    ring
  · rw [getTimeAxis_one_get timeoffset 0 (by norm_num)]
    norm_num
  · rw [getTimeAxis_one_get timeoffset 599 (by norm_num)]
    norm_num
  · intro x y j hx hy
    have hj : j < 600 := by
      have := (List.get?_eq_some.mp hy).1
      omega
    rw [getTimeAxis_one_300 timeoffset] at hx
    rw [getTimeAxis_one_get timeoffset j hj] at hy
    obtain rfl := Option.some.inj hx
    obtain rfl := Option.some.inj hy
    rcases le_or_lt j 300 with hj3 | hj3
    · have hjq : (j : ℚ) ≤ 299 ∨ (j : ℚ) = 300 := by
        rcases Nat.lt_or_ge j 300 with h3 | h3
        · left; exact_mod_cast Nat.le_of_lt_succ h3
        · right; exact_mod_cast le_antisymm hj3 h3
      rcases hjq with hjq | hjq
      · have := mul_le_mul_of_nonneg_right hjq (by norm_num : (0 : ℚ) ≤ 12 / 599)
        have hneg : -6 + (j : ℚ) * (12 / 599) < 0 := by linarith
        rw [abs_of_pos (by norm_num : (0 : ℚ) < 6 / 599), abs_of_neg hneg]
        linarith
      · rw [hjq]
        norm_num
    · have hjq : (300 : ℚ) ≤ (j : ℚ) := by exact_mod_cast le_of_lt hj3
      have := mul_le_mul_of_nonneg_right hjq (by norm_num : (0 : ℚ) ≤ 12 / 599)
      have hpos : (0 : ℚ) < -6 + (j : ℚ) * (12 / 599) := by linarith
      rw [abs_of_pos (by norm_num : (0 : ℚ) < 6 / 599), abs_of_pos hpos]
      linarith

/-- Witness for C3 at `timeoffset = 0`, with the minimality part applied at
the concrete indices 300 and 0. -/
theorem C3_timeAxis_properties_witness :
    (RigolScope.getTimeAxis 1 0).length = 600 ∧
    (RigolScope.getTimeAxis 1 0).get? 0 = some (-6) ∧
    (RigolScope.getTimeAxis 1 0).get? 599 = some 6 ∧
    |(6 / 599 : ℚ)| ≤ |(-6 : ℚ)| :=
  ⟨(C3_timeAxis_properties 0).1,
   (C3_timeAxis_properties 0).2.2.2.1,
   (C3_timeAxis_properties 0).2.2.2.2.1,
   (C3_timeAxis_properties 0).2.2.2.2.2.1 (6 / 599) (-6) 0
     (getTimeAxis_one_300 0) ((C3_timeAxis_properties 0).2.2.2.1)⟩

/-- An unparseable response makes `float(...)` raise: the result is the
propagated `MalformedResponseError`, never an `ok` value. -/
theorem floatOfResponse_none (resp : String) (h : pyFloat resp = none) :
    floatOfResponse resp = Except.error (.malformedResponse resp) ∧
    ∀ v, floatOfResponse resp ≠ Except.ok v := by
  unfold floatOfResponse
  rw [h]
  exact ⟨rfl, fun v hv => Except.noConfusion hv⟩

/-- **C5.** For each of the four scale/offset queries, a response that does
not parse as a floating-point number — in particular the empty response a
timed-out read produces — makes the operation return the propagated
`MalformedResponseError`; it never returns a silent default value (no `ok`
result at all, in particular not `ok 0`), and being a total function it
cannot crash. -/
theorem C5_parse_failure_is_error (respond : String → String) (chan : ℕ) :
    (pyFloat (respond (":CHAN" ++ toString chan ++ ":SCAL?")) = none →
      RigolScope.getVoltScale respond chan =
        Except.error (.malformedResponse (respond (":CHAN" ++ toString chan ++ ":SCAL?"))) ∧
      ∀ v, RigolScope.getVoltScale respond chan ≠ Except.ok v) ∧
    (pyFloat (respond (":CHAN" ++ toString chan ++ ":OFFS?")) = none →
      RigolScope.getVoltOffset respond chan =
        Except.error (.malformedResponse (respond (":CHAN" ++ toString chan ++ ":OFFS?"))) ∧
      ∀ v, RigolScope.getVoltOffset respond chan ≠ Except.ok v) ∧
    (pyFloat (respond ":TIM:SCAL?") = none →
      RigolScope.getTimeScale respond =
        Except.error (.malformedResponse (respond ":TIM:SCAL?")) ∧
      ∀ v, RigolScope.getTimeScale respond ≠ Except.ok v) ∧
    (pyFloat (respond ":TIM:OFFS?") = none →
      RigolScope.getTimeOffset respond =
        Except.error (.malformedResponse (respond ":TIM:OFFS?")) ∧
      ∀ v, RigolScope.getTimeOffset respond ≠ Except.ok v) ∧
    pyFloat "" = none :=
  ⟨fun h => floatOfResponse_none _ h, fun h => floatOfResponse_none _ h,
   fun h => floatOfResponse_none _ h, fun h => floatOfResponse_none _ h, rfl⟩

/-- Witness for C5: with every query timing out (empty responses), the
voltage-scale and time-scale queries for channel 1 both surface the parse
error on the empty string. -/
theorem C5_parse_failure_is_error_witness :
    RigolScope.getVoltScale emptyRespond 1 =
      Except.error (ScopeError.malformedResponse "") ∧
    RigolScope.getTimeScale emptyRespond =
      Except.error (ScopeError.malformedResponse "") :=
  ⟨((C5_parse_failure_is_error emptyRespond 1).1 rfl).1,
   ((C5_parse_failure_is_error emptyRespond 1).2.2.1 rfl).1⟩

/-! ## Serialization claims -/

/-- The `%1.3e` rendering of the zero value. -/
theorem formatE3_zero : formatE 3 0 = "0.000e+00" := rfl

/-- `numpy.zeros` reads back `0` at every index. -/
theorem numpy_zeros_getD (n i : ℕ) : (numpy_zeros n).getD i 0 = 0 := by
  simp [numpy_zeros, List.getD]

/-- `numpy.zeros n` has length `n`. -/
theorem numpy_zeros_length (n : ℕ) : (numpy_zeros n).length = n := by
  unfold numpy_zeros
  exact List.length_replicate n 0

/-- `_writeChannelDataToFile` on arrays covering the time axis: the header
line followed by one formatted line per time sample. -/
theorem writeChannelDataToFile_spec (data1 data2 time : List ℚ)
    (h1 : time.length ≤ data1.length) (h2 : time.length ≤ data2.length) :
    RigolScope.writeChannelDataToFile data1 data2 time =
      some (headerLine :: (List.range time.length).map
        (fun i => dataLine (time.getD i 0) (data1.getD i 0) (data2.getD i 0))) := by
  unfold RigolScope.writeChannelDataToFile
  rw [if_pos ⟨h1, h2⟩]

/-- **C8.** The serialized output always has the fixed 3-column shape: one
header line plus one data line per time sample (600 of them), and a channel
that was not requested contributes a zero column — rendered as the literal
`0.000e+00` on every data line — never a gap or an omitted column. -/
theorem C8_unused_channel_is_zero_column (chan : ChanSel) (timescale timeoffset : ℚ)
    (w1 w2 : List ℚ) :
    (chanNum chan ≠ 1 → chanNum chan ≠ 3 → 600 ≤ w2.length →
      ∃ L, RigolScope.writeWaveformToFile_lines chan timescale timeoffset w1 w2 = some L ∧
        L.length = 1 + 600 ∧
        L.get? 0 = some headerLine ∧
        ∀ i, i < 600 → ∃ t v, L.get? (i + 1) =
          some (formatE 4 t ++ "\t" ++ "0.000e+00" ++ "\t" ++ formatE 3 v ++ "\n")) ∧
    (chanNum chan ≠ 2 → chanNum chan ≠ 3 → 600 ≤ w1.length →
      ∃ L, RigolScope.writeWaveformToFile_lines chan timescale timeoffset w1 w2 = some L ∧
        L.length = 1 + 600 ∧
        L.get? 0 = some headerLine ∧
        ∀ i, i < 600 → ∃ t v, L.get? (i + 1) =
          some (formatE 4 t ++ "\t" ++ formatE 3 v ++ "\t" ++ "0.000e+00" ++ "\n")) := by
  have htl : (RigolScope.getTimeAxis timescale timeoffset).length = 600 :=
    getTimeAxis_length timescale timeoffset
  constructor
  · intro hn1 hn3 hw2
    unfold RigolScope.writeWaveformToFile_lines
    rw [if_neg (show ¬(chanNum chan = 1 ∨ chanNum chan = 3) from
      fun hc => hc.elim hn1 hn3)]
    have h2 : (RigolScope.getTimeAxis timescale timeoffset).length ≤
        (if chanNum chan = 2 ∨ chanNum chan = 3 then w2
          else numpy_zeros (RigolScope.getTimeAxis timescale timeoffset).length).length := by
      split
      · omega
      · exact (numpy_zeros_length _).ge
    rw [writeChannelDataToFile_spec _ _ _
      ((numpy_zeros_length (RigolScope.getTimeAxis timescale timeoffset).length).ge) h2]
    refine ⟨_, rfl,
      (by simp only [List.length_cons, List.length_map, List.length_range, htl]),
      rfl, ?_⟩
    intro i hi
    refine ⟨(RigolScope.getTimeAxis timescale timeoffset).getD i 0,
      (if chanNum chan = 2 ∨ chanNum chan = 3 then w2
        else numpy_zeros (RigolScope.getTimeAxis timescale timeoffset).length).getD i 0, ?_⟩
    rw [List.get?_cons_succ, List.get?_map, List.get?_range (by omega), Option.map_some']
    unfold dataLine
    rw [numpy_zeros_getD, formatE3_zero]
  · intro hn2 hn3 hw1
    unfold RigolScope.writeWaveformToFile_lines
    rw [if_neg (show ¬(chanNum chan = 2 ∨ chanNum chan = 3) from
      fun hc => hc.elim hn2 hn3)]
    have h1 : (RigolScope.getTimeAxis timescale timeoffset).length ≤
        (if chanNum chan = 1 ∨ chanNum chan = 3 then w1
          else numpy_zeros (RigolScope.getTimeAxis timescale timeoffset).length).length := by
      split
      · omega
      · exact (numpy_zeros_length _).ge
    rw [writeChannelDataToFile_spec _ _ _ h1
      ((numpy_zeros_length (RigolScope.getTimeAxis timescale timeoffset).length).ge)]
    refine ⟨_, rfl,
      (by simp only [List.length_cons, List.length_map, List.length_range, htl]),
      rfl, ?_⟩
    intro i hi
    refine ⟨(RigolScope.getTimeAxis timescale timeoffset).getD i 0,
      (if chanNum chan = 1 ∨ chanNum chan = 3 then w1
        else numpy_zeros (RigolScope.getTimeAxis timescale timeoffset).length).getD i 0, ?_⟩
    rw [List.get?_cons_succ, List.get?_map, List.get?_range (by omega), Option.map_some']
    unfold dataLine
    rw [numpy_zeros_getD, formatE3_zero]

/-- Witness for C8 with channel selector `0` (neither channel requested) and
600-sample oracles: both the channel-1 and channel-2 columns are the
formatted zero column. -/
theorem C8_unused_channel_is_zero_column_witness :
    (∃ L, RigolScope.writeWaveformToFile_lines (ChanSel.num 0) 1 0
        (numpy_zeros 600) (numpy_zeros 600) = some L ∧
      L.length = 1 + 600 ∧
      L.get? 0 = some headerLine ∧
      ∀ i, i < 600 → ∃ t v, L.get? (i + 1) =
        some (formatE 4 t ++ "\t" ++ "0.000e+00" ++ "\t" ++ formatE 3 v ++ "\n")) ∧
    (∃ L, RigolScope.writeWaveformToFile_lines (ChanSel.num 0) 1 0
        (numpy_zeros 600) (numpy_zeros 600) = some L ∧
      L.length = 1 + 600 ∧
      L.get? 0 = some headerLine ∧
      ∀ i, i < 600 → ∃ t v, L.get? (i + 1) =
        some (formatE 4 t ++ "\t" ++ formatE 3 v ++ "\t" ++ "0.000e+00" ++ "\n")) :=
  ⟨(C8_unused_channel_is_zero_column (ChanSel.num 0) 1 0 (numpy_zeros 600)
      (numpy_zeros 600)).1 (by decide) (by decide) (numpy_zeros_length 600).ge,
   (C8_unused_channel_is_zero_column (ChanSel.num 0) 1 0 (numpy_zeros 600)
      (numpy_zeros 600)).2 (by decide) (by decide) (numpy_zeros_length 600).ge⟩

/-- **C10.** Called with the blank filename sentinel `""`,
`writeWaveformToFile` sends every line to standard output and then
unconditionally closes the stream it wrote to — the final file operation is
`close(stdout)`, the same close a named file receives. -/
theorem C10_blank_filename_closes_stdout (chan : ChanSel) (timescale timeoffset : ℚ)
    (w1 w2 : List ℚ) (h1 : 600 ≤ w1.length) (h2 : 600 ≤ w2.length) :
    ∃ ops, RigolScope.writeWaveformToFile_ops "" chan timescale timeoffset w1 w2 = some ops ∧
      ops.getLast? = some (FileOp.close FileTarget.stdout) ∧
      ∀ op ∈ ops, FileOp.target op = FileTarget.stdout := by
  have htl : (RigolScope.getTimeAxis timescale timeoffset).length = 600 :=
    getTimeAxis_length timescale timeoffset
  have hd1 : (RigolScope.getTimeAxis timescale timeoffset).length ≤
      (if chanNum chan = 1 ∨ chanNum chan = 3 then w1
        else numpy_zeros (RigolScope.getTimeAxis timescale timeoffset).length).length := by
    split
    · omega
    · exact (numpy_zeros_length _).ge
  have hd2 : (RigolScope.getTimeAxis timescale timeoffset).length ≤
      (if chanNum chan = 2 ∨ chanNum chan = 3 then w2
        else numpy_zeros (RigolScope.getTimeAxis timescale timeoffset).length).length := by
    split
    · omega
    · exact (numpy_zeros_length _).ge
  unfold RigolScope.writeWaveformToFile_ops RigolScope.writeWaveformToFile_lines
  rw [if_pos rfl]
  rw [writeChannelDataToFile_spec _ _ _ hd1 hd2]
  rw [Option.map_some']
  refine ⟨_, rfl, ?_, ?_⟩
  · rw [List.getLast?_concat]
  · intro op hop
    rcases List.mem_append.mp hop with hop | hop
    · rcases List.mem_map.mp hop with ⟨s, _, rfl⟩
      rfl
    · rcases List.mem_singleton.mp hop with rfl
      rfl

/-- Witness for C10 with both channels requested and 600-sample oracles. -/
theorem C10_blank_filename_closes_stdout_witness :
    ∃ ops, RigolScope.writeWaveformToFile_ops "" ChanSel.both 1 0
        (numpy_zeros 600) (numpy_zeros 600) = some ops ∧
      ops.getLast? = some (FileOp.close FileTarget.stdout) ∧
      ∀ op ∈ ops, FileOp.target op = FileTarget.stdout :=
  C10_blank_filename_closes_stdout ChanSel.both 1 0 (numpy_zeros 600) (numpy_zeros 600)
    (numpy_zeros_length 600).ge (numpy_zeros_length 600).ge
